import Mathlib

/-!
Verification of the FalkorDB `text-to-cypher-node` binding.

The definitions below are a shallow embedding of `src/lib.rs`, the Node (napi)
binding over the `text_to_cypher` core crate.  Rust `String` is Lean `String`,
`Vec<T>` is `List T`, `Option<T>` is `Option T`, and the napi
`Result<T>` (a value or a rejected promise carrying an error message) is
`Except String T`.  The async core-client methods (`TextToCypherClient`
pipeline calls), which live in the `text_to_cypher` crate and not in this
repository, are modelled as explicitly passed capability functions; where a
claim depends on the behaviour of that missing core, the core is modelled
from the specification and marked as such in its doc comment.
-/

namespace TextToCypherNode

/-- Model of Rust `str::to_lowercase`, applied character by character
(faithful to the Rust behaviour on ASCII input, which is all the code
compares against). -/
def toLowercase (s : String) : String := ⟨s.data.map Char.toLower⟩

/-- The `ClientOptions` napi object (src/lib.rs lines 9-18). -/
structure ClientOptions where
  model : String
  api_key : String
  falkordb_connection : String

/-- The `Message` napi object: a role string plus content (src/lib.rs lines 21-28). -/
structure Message where
  role : String
  content : String
deriving DecidableEq

/-- The core crate's `ChatRole` enum, visible in src/lib.rs through the
variants `ChatRole::User`, `ChatRole::Assistant`, `ChatRole::System`. -/
inductive ChatRole where
  | user
  | assistant
  | system
deriving DecidableEq

/-- The core crate's `ChatMessage`: a tagged role plus content, as constructed
in src/lib.rs lines 187-190 and 241-244. -/
structure ChatMessage where
  role : ChatRole
  content : String
deriving DecidableEq

/-- The core crate's `ChatRequest`: an ordered message sequence
(src/lib.rs lines 186-191 and 248-250). -/
structure ChatRequest where
  messages : List ChatMessage
deriving DecidableEq

/-- The core crate's response record, with the six fields read by the `From`
conversion in src/lib.rs lines 48-59. -/
structure CoreTextToCypherResponse where
  status : String
  schema : Option String
  cypher_query : Option String
  cypher_result : Option String
  answer : Option String
  error : Option String
deriving DecidableEq

/-- The binding's `TextToCypherResponse` napi object (src/lib.rs lines 31-46). -/
structure TextToCypherResponse where
  status : String
  schema : Option String
  cypher_query : Option String
  cypher_result : Option String
  answer : Option String
  error : Option String
deriving DecidableEq

/-- The `From<text_to_cypher::TextToCypherResponse> for TextToCypherResponse`
conversion (src/lib.rs lines 48-59). -/
def coreToResponse (response : CoreTextToCypherResponse) : TextToCypherResponse :=
  { status := response.status
    schema := response.schema
    cypher_query := response.cypher_query
    cypher_result := response.cypher_result
    answer := response.answer
    error := response.error }

/-- Curated OpenAI model list (src/lib.rs lines 63-71). -/
def get_openai_models : List String :=
  ["gpt-4o-mini", "gpt-4o", "gpt-4-turbo", "gpt-4", "gpt-3.5-turbo"]

/-- Curated Anthropic model list (src/lib.rs lines 73-80). -/
def get_anthropic_models : List String :=
  ["anthropic:claude-3-5-sonnet-20241022", "anthropic:claude-3-opus-20240229",
   "anthropic:claude-3-sonnet-20240229", "anthropic:claude-3-haiku-20240307"]

/-- Curated Gemini model list (src/lib.rs lines 82-88). -/
def get_gemini_models : List String :=
  ["gemini:gemini-2.0-flash-exp", "gemini:gemini-1.5-pro", "gemini:gemini-1.5-flash"]

/-- Curated Ollama model list (src/lib.rs lines 90-97). -/
def get_ollama_models : List String :=
  ["ollama:llama2", "ollama:llama3", "ollama:mixtral", "ollama:phi3"]

/-- The `SUPPORTED_PROVIDERS` constant (src/lib.rs line 99). -/
def SUPPORTED_PROVIDERS : List String := ["openai", "anthropic", "gemini", "ollama"]

/-- Body of `list_models` (src/lib.rs lines 342-352): a fresh vector extended
by the four curated lists in order, always returned as `Ok`. -/
def list_models : Except String (List String) :=
  let models : List String := []
  let models := models ++ get_openai_models
  let models := models ++ get_anthropic_models
  let models := models ++ get_gemini_models
  let models := models ++ get_ollama_models
  .ok models

/-- The error message built by `list_models_by_provider` for an unknown
provider (src/lib.rs lines 385-389). -/
def unknownProviderMessage (provider : String) : String :=
  "Unknown provider: \x27" ++ provider ++ "\x27. Supported providers are: " ++
    String.intercalate ", " SUPPORTED_PROVIDERS

/-- Body of `list_models_by_provider` (src/lib.rs lines 377-391): lowercase
the provider (the Rust `provider_lower` binding, inlined here) and dispatch
on the result. -/
def list_models_by_provider (provider : String) : Except String (List String) :=
  match toLowercase provider with
  | "openai" => .ok get_openai_models
  | "anthropic" => .ok get_anthropic_models
  | "gemini" => .ok get_gemini_models
  | "ollama" => .ok get_ollama_models
  | _ => .error (unknownProviderMessage provider)

theorem data_append (a b : String) : (a ++ b).data = a.data ++ b.data := rfl

/-- The error message built for an invalid conversation role
(src/lib.rs lines 235-238). -/
def invalidRoleMessage (role : String) : String :=
  "Invalid message role: \x27" ++ role ++
    "\x27. Must be \x27user\x27, \x27assistant\x27, or \x27system\x27"

/-- The per-message body of the `map` closure in `text_to_cypher_with_messages`
(src/lib.rs lines 229-245): lowercase the role string, map it to the tagged
`ChatRole` variant, and fail on anything outside the closed set. -/
def toChatMessage (msg : Message) : Except String ChatMessage :=
  match toLowercase msg.role with
  | "user" => .ok { role := ChatRole.user, content := msg.content }
  | "assistant" => .ok { role := ChatRole.assistant, content := msg.content }
  | "system" => .ok { role := ChatRole.system, content := msg.content }
  | _ => .error (invalidRoleMessage msg.role)

/-- A core-client pipeline capability: graph name and chat request in, core
response (or transport error) out.  Stands for the async
`TextToCypherClient::text_to_cypher` / `cypher_only` methods of the core
crate, which are outside this repository. -/
def CoreClient := String → ChatRequest → Except String CoreTextToCypherResponse

/-- The `map` + `collect::<Result<Vec<ChatMessage>>>` step of
`text_to_cypher_with_messages` (src/lib.rs lines 227-246): convert the
messages in order, short-circuiting on the first invalid role. -/
def convertMessages : List Message → Except String (List ChatMessage)
  | [] => .ok []
  | msg :: rest =>
    match toChatMessage msg with
    | .error e => .error e
    | .ok cm =>
      match convertMessages rest with
      | .error e => .error e
      | .ok cms => .ok (cm :: cms)

/-- Body of `text_to_cypher_with_messages` (src/lib.rs lines 222-256):
convert each caller message, short-circuiting on the first invalid role
(the `collect::<Result<Vec<_>>>` and the `?`), then run the core pipeline. -/
def text_to_cypher_with_messages (client : CoreClient)
    (graph_name : String) (messages : List Message) :
    Except String TextToCypherResponse :=
  match convertMessages messages with
  | .error e => .error e
  | .ok chat_messages =>
    match client graph_name { messages := chat_messages } with
    | .ok response => .ok (coreToResponse response)
    | .error e => .error ("Text-to-Cypher failed: " ++ e)

/-- Body of `text_to_cypher` (src/lib.rs lines 181-197): wrap the question as
a single user message and run the core full pipeline. -/
def text_to_cypher (client : CoreClient) (graph_name question : String) :
    Except String TextToCypherResponse :=
  match client graph_name { messages := [{ role := ChatRole.user, content := question }] } with
  | .ok response => .ok (coreToResponse response)
  | .error e => .error ("Text-to-Cypher failed: " ++ e)

/-- Body of `cypher_only` (src/lib.rs lines 279-295): wrap the question as a
single user message and run the core generation-only pipeline. -/
def cypher_only (client : CoreClient) (graph_name question : String) :
    Except String TextToCypherResponse :=
  match client graph_name { messages := [{ role := ChatRole.user, content := question }] } with
  | .ok response => .ok (coreToResponse response)
  | .error e => .error ("Cypher generation failed: " ++ e)

/-- Modelled from the spec: the core crate's `TextToCypherClient` value is not
in this repository; per the spec it merely stores the configuration at
construction (model identifier, credential, connection string), validating it
lazily on first use.  Its constructor signature (three strings in, a client
value out, no `Result`) is visible at the call site in src/lib.rs lines 144-148. -/
structure TextToCypherClient where
  model : String
  api_key : String
  falkordb_connection : String

/-- Constructor of the modelled core client: stores the configuration, total. -/
def TextToCypherClient.new (model api_key falkordb_connection : String) :
    TextToCypherClient :=
  { model := model, api_key := api_key, falkordb_connection := falkordb_connection }

/-- The binding's `TextToCypher` wrapper struct (src/lib.rs lines 120-123). -/
structure TextToCypher where
  client : TextToCypherClient

/-- Body of the napi constructor `TextToCypher::new` (src/lib.rs lines 142-151):
build the core client from the options and wrap it in `Ok`. -/
def TextToCypher.new (options : ClientOptions) : Except String TextToCypher :=
  let client := TextToCypherClient.new options.model options.api_key
    options.falkordb_connection
  .ok { client := client }

/-- Modelled from the spec: the four stage capabilities of the core pipeline
(schema discovery, query generation, query execution, answer synthesis),
each a fallible call, as described in spec sections 2, 4 and 6.  The core
pipeline itself is in the `text_to_cypher` crate, not in this repository. -/
structure CoreCapabilities where
  fetchSchema : String → Except String String
  generateQuery : String → List ChatMessage → Except String String
  executeQuery : String → String → Except String String
  synthesizeAnswer : ChatRequest → String → String → Except String String

/-- Modelled from the spec: the core full pipeline (spec section 4.6), a
linear state machine with early exit — SchemaDiscovery, QueryGeneration,
QueryExecution, AnswerSynthesis.  A stage error maps to a response with
`status = error` whose error message is wrapped with the stage's error kind
(spec section 7); fields of completed stages stay populated while fields of
stages that did not complete stay empty (spec section 3 invariant and the
short-circuit property of spec section 8). -/
def corePipeline (caps : CoreCapabilities) (graph_name : String)
    (request : ChatRequest) : CoreTextToCypherResponse :=
  match caps.fetchSchema graph_name with
  | .error e =>
    { status := "error", schema := none, cypher_query := none,
      cypher_result := none, answer := none,
      error := some ("SchemaDiscoveryFailed: " ++ e) }
  | .ok schema =>
    match caps.generateQuery schema request.messages with
    | .error e =>
      { status := "error", schema := some schema, cypher_query := none,
        cypher_result := none, answer := none,
        error := some ("GenerationFailed: " ++ e) }
    | .ok query =>
      match caps.executeQuery graph_name query with
      | .error e =>
        { status := "error", schema := some schema, cypher_query := some query,
          cypher_result := none, answer := none,
          error := some ("ExecutionFailed: " ++ e) }
      | .ok result =>
        match caps.synthesizeAnswer request query result with
        | .error e =>
          { status := "error", schema := some schema, cypher_query := some query,
            cypher_result := some result, answer := none,
            error := some ("SynthesisFailed: " ++ e) }
        | .ok answer =>
          { status := "success", schema := some schema, cypher_query := some query,
            cypher_result := some result, answer := some answer, error := none }

/-- Modelled from the spec: the core generation-only pipeline (spec section
4.6, `GenerationOnly`) — SchemaDiscovery and QueryGeneration only, leaving
`cypher_result` and `answer` empty. -/
def coreCypherOnly (caps : CoreCapabilities) (graph_name : String)
    (request : ChatRequest) : CoreTextToCypherResponse :=
  match caps.fetchSchema graph_name with
  | .error e =>
    { status := "error", schema := none, cypher_query := none,
      cypher_result := none, answer := none,
      error := some ("SchemaDiscoveryFailed: " ++ e) }
  | .ok schema =>
    match caps.generateQuery schema request.messages with
    | .error e =>
      { status := "error", schema := some schema, cypher_query := none,
        cypher_result := none, answer := none,
        error := some ("GenerationFailed: " ++ e) }
    | .ok query =>
      { status := "success", schema := some schema, cypher_query := some query,
        cypher_result := none, answer := none, error := none }

/-- Modelled from the spec: the core client's full-pipeline method over given
capabilities.  Stage errors are delivered inside the response (spec sections
4.6 and 7), so the call itself succeeds. -/
def coreClientFull (caps : CoreCapabilities) : CoreClient :=
  fun graph_name request => .ok (corePipeline caps graph_name request)

/-- Modelled from the spec: the core client's generation-only method over
given capabilities. -/
def coreClientGenOnly (caps : CoreCapabilities) : CoreClient :=
  fun graph_name request => .ok (coreCypherOnly caps graph_name request)

/-- The closed set of role strings accepted by the match in
`text_to_cypher_with_messages` (src/lib.rs lines 230-233). -/
def validRoles : List String := ["user", "assistant", "system"]

/-- A message whose lowercased role is outside the closed set is mapped to
the invalid-role error. -/
theorem toChatMessage_error_of_invalid (m : Message)
    (h : toLowercase m.role ∉ validRoles) :
    toChatMessage m = .error (invalidRoleMessage m.role) := by
  unfold toChatMessage
  split
  all_goals first
    | rfl
    | (rename_i heq
       exact absurd (show toLowercase m.role ∈ validRoles by
         rw [heq]; decide) h)

/-- Pointwise faithfulness of the role conversion: content is copied and the
tagged variant is the one selected by the lowercased role string. -/
def roleFaithful (m : Message) (cm : ChatMessage) : Prop :=
  cm.content = m.content ∧
  ((toLowercase m.role = "user" ∧ cm.role = ChatRole.user) ∨
   (toLowercase m.role = "assistant" ∧ cm.role = ChatRole.assistant) ∨
   (toLowercase m.role = "system" ∧ cm.role = ChatRole.system))

/-- A message whose lowercased role is in the closed set converts successfully
and faithfully. -/
theorem toChatMessage_ok_of_valid (m : Message)
    (h : toLowercase m.role ∈ validRoles) :
    ∃ cm, toChatMessage m = .ok cm ∧ roleFaithful m cm := by
  simp only [validRoles, List.mem_cons, List.not_mem_nil, or_false] at h
  rcases h with h | h | h
  · exact ⟨{ role := ChatRole.user, content := m.content },
      by simp only [toChatMessage, h], rfl, Or.inl ⟨h, rfl⟩⟩
  · exact ⟨{ role := ChatRole.assistant, content := m.content },
      by simp only [toChatMessage, h], rfl, Or.inr (Or.inl ⟨h, rfl⟩)⟩
  · exact ⟨{ role := ChatRole.system, content := m.content },
      by simp only [toChatMessage, h], rfl, Or.inr (Or.inr ⟨h, rfl⟩)⟩

/-- If some message has an invalid role, the conversion fails with the
invalid-role error for a message of the conversation that is invalid. -/
theorem convertMessages_error_of_invalid :
    ∀ (messages : List Message),
      (∃ m ∈ messages, toLowercase m.role ∉ validRoles) →
      ∃ bad, bad ∈ messages ∧ toLowercase bad.role ∉ validRoles ∧
        convertMessages messages = .error (invalidRoleMessage bad.role)
  | [], h => absurd h (by simp)
  | m :: rest, h => by
    by_cases hm : toLowercase m.role ∈ validRoles
    · obtain ⟨x, hx, hxbad⟩ := h
      rcases List.mem_cons.mp hx with rfl | hx
      · exact absurd hm hxbad
      · obtain ⟨bad, hmem, hbad, herr⟩ :=
          convertMessages_error_of_invalid rest ⟨x, hx, hxbad⟩
        obtain ⟨cm, hcm, -⟩ := toChatMessage_ok_of_valid m hm
        refine ⟨bad, List.mem_cons_of_mem m hmem, hbad, ?_⟩
        unfold convertMessages
        rw [hcm, herr]
    · refine ⟨m, List.mem_cons_self m rest, hm, ?_⟩
      unfold convertMessages
      rw [toChatMessage_error_of_invalid m hm]

/-- If every message has a valid role, the conversion succeeds and is
pointwise faithful (same length, same order, content unchanged, role mapped
by the lowercased string). -/
theorem convertMessages_ok_of_valid :
    ∀ (messages : List Message),
      (∀ m ∈ messages, toLowercase m.role ∈ validRoles) →
      ∃ cms, convertMessages messages = .ok cms ∧
        List.Forall₂ roleFaithful messages cms
  | [], _ => ⟨[], rfl, List.Forall₂.nil⟩
  | m :: rest, h => by
    obtain ⟨cm, hcm, hfaith⟩ :=
      toChatMessage_ok_of_valid m (h m (List.mem_cons_self m rest))
    obtain ⟨cms, hcms, hrel⟩ := convertMessages_ok_of_valid rest
      (fun x hx => h x (List.mem_cons_of_mem m hx))
    refine ⟨cm :: cms, ?_, List.Forall₂.cons hfaith hrel⟩
    unfold convertMessages
    rw [hcm, hcms]

/-- C1: a conversation containing a message whose role (compared
case-insensitively) is outside the closed set makes
`text_to_cypher_with_messages` fail with the invalid-role error naming that
role, for every core client — so the underlying pipeline capability is never
invoked. -/
theorem claim_C1_invalid_role_rejected (messages : List Message)
    (h : ∃ m ∈ messages, toLowercase m.role ∉ validRoles) :
    ∃ bad, bad ∈ messages ∧ toLowercase bad.role ∉ validRoles ∧
      bad.role.data <:+: (invalidRoleMessage bad.role).data ∧
      ∀ (client : CoreClient) (graph_name : String),
        text_to_cypher_with_messages client graph_name messages =
          .error (invalidRoleMessage bad.role) := by
  obtain ⟨bad, hmem, hbad, herr⟩ := convertMessages_error_of_invalid messages h
  refine ⟨bad, hmem, hbad, ?_, ?_⟩
  · exact ⟨"Invalid message role: \x27".data,
      "\x27. Must be \x27user\x27, \x27assistant\x27, or \x27system\x27".data,
      by simp [invalidRoleMessage, data_append, List.append_assoc]⟩
  · intro client graph_name
    unfold text_to_cypher_with_messages
    rw [herr]

/-- Witness for C1 at a concrete conversation with the unsupported role
"moderator". -/
theorem claim_C1_witness :
    (∃ m ∈ ([{ role := "moderator", content := "hi" }] : List Message),
      toLowercase m.role ∉ validRoles) ∧
    (∃ bad, bad ∈ ([{ role := "moderator", content := "hi" }] : List Message) ∧
      toLowercase bad.role ∉ validRoles ∧
      bad.role.data <:+: (invalidRoleMessage bad.role).data ∧
      ∀ (client : CoreClient) (graph_name : String),
        text_to_cypher_with_messages client graph_name
          [{ role := "moderator", content := "hi" }] =
          .error (invalidRoleMessage bad.role)) :=
  ⟨by decide, claim_C1_invalid_role_rejected _ (by decide)⟩

/-- C8: a conversation in which every role lowercases into the closed set is
passed to the core pipeline as a chat-message list of the same length and
order, each content unchanged and each role mapped to the tagged variant
selected solely by the lowercased role string; the operation then behaves
exactly as the core client's result dictates. -/
theorem claim_C8_valid_roles_mapped (messages : List Message)
    (h : ∀ m ∈ messages, toLowercase m.role ∈ validRoles) :
    ∃ chat_messages,
      convertMessages messages = .ok chat_messages ∧
      chat_messages.length = messages.length ∧
      List.Forall₂ roleFaithful messages chat_messages ∧
      ∀ (client : CoreClient) (graph_name : String),
        text_to_cypher_with_messages client graph_name messages =
          match client graph_name { messages := chat_messages } with
          | .ok response => .ok (coreToResponse response)
          | .error e => .error ("Text-to-Cypher failed: " ++ e) := by
  obtain ⟨cms, hok, hrel⟩ := convertMessages_ok_of_valid messages h
  refine ⟨cms, hok, hrel.length_eq.symm, hrel, ?_⟩
  intro client graph_name
  unfold text_to_cypher_with_messages
  rw [hok]

/-- Witness for C8 at a concrete three-message conversation with mixed-case
roles. -/
theorem claim_C8_witness :
    (∀ m ∈ ([{ role := "User", content := "show actors" },
             { role := "ASSISTANT", content := "here" },
             { role := "system", content := "be brief" }] : List Message),
      toLowercase m.role ∈ validRoles) ∧
    (∃ chat_messages,
      convertMessages [{ role := "User", content := "show actors" },
             { role := "ASSISTANT", content := "here" },
             { role := "system", content := "be brief" }] = .ok chat_messages ∧
      chat_messages.length = 3 ∧
      List.Forall₂ roleFaithful [{ role := "User", content := "show actors" },
             { role := "ASSISTANT", content := "here" },
             { role := "system", content := "be brief" }] chat_messages ∧
      ∀ (client : CoreClient) (graph_name : String),
        text_to_cypher_with_messages client graph_name
          [{ role := "User", content := "show actors" },
             { role := "ASSISTANT", content := "here" },
             { role := "system", content := "be brief" }] =
          match client graph_name { messages := chat_messages } with
          | .ok response => .ok (coreToResponse response)
          | .error e => .error ("Text-to-Cypher failed: " ++ e)) :=
  ⟨by decide, claim_C8_valid_roles_mapped _ (by decide)⟩

/-- C4: for every provider string whose lowercase form is not a supported
provider, `list_models_by_provider` returns an error whose message contains
the offending provider string as supplied and enumerates the full supported
provider set. -/
theorem claim_C4_unknown_provider (provider : String)
    (h : toLowercase provider ∉ SUPPORTED_PROVIDERS) :
    ∃ msg, list_models_by_provider provider = .error msg ∧
      provider.data <:+: msg.data ∧
      (String.intercalate ", " SUPPORTED_PROVIDERS).data <:+: msg.data := by
  refine ⟨unknownProviderMessage provider, ?_, ?_, ?_⟩
  · unfold list_models_by_provider
    split
    all_goals first
      | rfl
      | (rename_i heq
         exact absurd (show toLowercase provider ∈ SUPPORTED_PROVIDERS by
           rw [heq]; decide) h)
  · exact ⟨"Unknown provider: \x27".data,
      ("\x27. Supported providers are: " ++
        String.intercalate ", " SUPPORTED_PROVIDERS).data,
      by simp [unknownProviderMessage, data_append, List.append_assoc]⟩
  · exact ⟨("Unknown provider: \x27" ++ provider ++
        "\x27. Supported providers are: ").data, [],
      by simp [unknownProviderMessage, data_append, List.append_assoc]⟩

/-- Witness for C4 at the concrete unsupported provider string "azure". -/
theorem claim_C4_witness :
    toLowercase "azure" ∉ SUPPORTED_PROVIDERS ∧
    (∃ msg, list_models_by_provider "azure" = .error msg ∧
      "azure".data <:+: msg.data ∧
      (String.intercalate ", " SUPPORTED_PROVIDERS).data <:+: msg.data) :=
  ⟨by decide, claim_C4_unknown_provider "azure" (by decide)⟩

/-- C5: provider resolution is case-insensitive — for every string whose
lowercase form is a supported provider name, `list_models_by_provider`
succeeds and agrees with `list_models_by_provider` on the lowercase name. -/
theorem claim_C5_provider_case_insensitive (provider : String)
    (h : toLowercase provider ∈ SUPPORTED_PROVIDERS) :
    ∃ models, list_models_by_provider provider = .ok models ∧
      list_models_by_provider (toLowercase provider) = .ok models := by
  simp only [SUPPORTED_PROVIDERS, List.mem_cons, List.not_mem_nil,
    or_false] at h
  rcases h with h | h | h | h
  · exact ⟨get_openai_models, by simp only [list_models_by_provider, h],
      by rw [h]; rfl⟩
  · exact ⟨get_anthropic_models, by simp only [list_models_by_provider, h],
      by rw [h]; rfl⟩
  · exact ⟨get_gemini_models, by simp only [list_models_by_provider, h],
      by rw [h]; rfl⟩
  · exact ⟨get_ollama_models, by simp only [list_models_by_provider, h],
      by rw [h]; rfl⟩

/-- Witness for C5 at the concrete mixed-case provider string "OpenAI". -/
theorem claim_C5_witness :
    toLowercase "OpenAI" ∈ SUPPORTED_PROVIDERS ∧
    (∃ models, list_models_by_provider "OpenAI" = .ok models ∧
      list_models_by_provider (toLowercase "OpenAI") = .ok models) :=
  ⟨by decide, claim_C5_provider_case_insensitive "OpenAI" (by decide)⟩

/-- C6: `list_models` never returns an error and always returns the fixed
concatenation of the curated OpenAI, Anthropic, Gemini and Ollama lists, in
that order. -/
theorem claim_C6_static_aggregated_list :
    list_models = .ok (get_openai_models ++ get_anthropic_models ++
      get_gemini_models ++ get_ollama_models) := rfl

/-- C7: `list_models_by_provider "openai"` succeeds with a non-empty list of
pairwise-distinct identifiers, none of which contains the "anthropic:",
"gemini:" or "ollama:" provider prefix anywhere. -/
theorem claim_C7_openai_models_wellformed :
    ∃ models, list_models_by_provider "openai" = .ok models ∧
      models ≠ [] ∧ models.Nodup ∧
      ∀ m ∈ models, ¬ ("anthropic:".data <:+: m.data) ∧
        ¬ ("gemini:".data <:+: m.data) ∧ ¬ ("ollama:".data <:+: m.data) :=
  ⟨get_openai_models, rfl, by decide, by decide, by decide⟩

/-- Concrete capabilities in which schema discovery and generation succeed
and execution fails: the C3 short-circuit scenario. -/
def capsExecFail : CoreCapabilities :=
  { fetchSchema := fun _ => .ok "schema-json"
    generateQuery := fun _ _ => .ok "MATCH (a:Actor) RETURN a"
    executeQuery := fun _ _ => .error "store rejected the statement"
    synthesizeAnswer := fun _ _ _ => .ok "the answer" }

/-- The response produced for `capsExecFail`: an error response that still
carries the generated query and the discovered schema. -/
def execFailResponse : TextToCypherResponse :=
  { status := "error", schema := some "schema-json",
    cypher_query := some "MATCH (a:Actor) RETURN a",
    cypher_result := none, answer := none,
    error := some "ExecutionFailed: store rejected the statement" }

/-- Any error outcome of the modelled full pipeline has its error populated
and its answer (the final stage's output) empty. -/
theorem corePipeline_error_shape (caps : CoreCapabilities)
    (graph_name : String) (request : ChatRequest) :
    (corePipeline caps graph_name request).status = "error" →
    (corePipeline caps graph_name request).error ≠ none ∧
    (corePipeline caps graph_name request).answer = none := by
  unfold corePipeline
  split
  · exact fun _ => ⟨by simp, rfl⟩
  · split
    · exact fun _ => ⟨by simp, rfl⟩
    · split
      · exact fun _ => ⟨by simp, rfl⟩
      · split
        · exact fun _ => ⟨by simp, rfl⟩
        · exact fun hs => by simp at hs

/-- Any error outcome of the modelled generation-only pipeline has its error
populated and its execution/answer fields empty. -/
theorem coreCypherOnly_error_shape (caps : CoreCapabilities)
    (graph_name : String) (request : ChatRequest) :
    (coreCypherOnly caps graph_name request).status = "error" →
    (coreCypherOnly caps graph_name request).error ≠ none ∧
    (coreCypherOnly caps graph_name request).cypher_result = none ∧
    (coreCypherOnly caps graph_name request).answer = none := by
  unfold coreCypherOnly
  split
  · exact fun _ => ⟨by simp, rfl, rfl⟩
  · split
    · exact fun _ => ⟨by simp, rfl, rfl⟩
    · exact fun hs => by simp at hs

/-- Counterexample to C2 as stated: when execution fails after successful
generation, the error response still carries a populated success field
(`cypher_query`, and `schema`), so "all success fields are empty" is false. -/
theorem claim_C2_counterexample :
    text_to_cypher (coreClientFull capsExecFail) "movies" "Find actors" =
      .ok execFailResponse ∧
    execFailResponse.status = "error" ∧
    execFailResponse.error ≠ none ∧
    execFailResponse.cypher_query ≠ none ∧
    execFailResponse.schema ≠ none :=
  ⟨rfl, rfl, by simp [execFailResponse], by simp [execFailResponse],
    by simp [execFailResponse]⟩

/-- C2 (amended): when a stage fails, `text_to_cypher` and `cypher_only`
deliver a response with status error and a populated error message, and the
fields of stages that did not complete stay empty (the answer for the full
pipeline; execution result and answer for generation-only), while fields of
stages completed before the failure may be retained. -/
theorem claim_C2_error_contract (caps : CoreCapabilities)
    (graph_name question : String) (resp : TextToCypherResponse) :
    (text_to_cypher (coreClientFull caps) graph_name question = .ok resp →
      resp.status = "error" →
      resp.error ≠ none ∧ resp.answer = none) ∧
    (cypher_only (coreClientGenOnly caps) graph_name question = .ok resp →
      resp.status = "error" →
      resp.error ≠ none ∧ resp.cypher_result = none ∧ resp.answer = none) := by
  constructor
  · intro h hs
    simp only [text_to_cypher, coreClientFull, Except.ok.injEq] at h
    subst h
    exact corePipeline_error_shape caps graph_name _ hs
  · intro h hs
    simp only [cypher_only, coreClientGenOnly, Except.ok.injEq] at h
    subst h
    exact coreCypherOnly_error_shape caps graph_name _ hs

/-- Witness for C2 (amended) at the concrete execution-failure scenario. -/
theorem claim_C2_witness :
    (text_to_cypher (coreClientFull capsExecFail) "movies" "Find actors" =
      .ok execFailResponse) ∧
    execFailResponse.status = "error" ∧
    (execFailResponse.error ≠ none ∧ execFailResponse.answer = none) :=
  ⟨rfl, rfl, (claim_C2_error_contract capsExecFail "movies" "Find actors"
    execFailResponse).1 rfl rfl⟩

/-- C3: when schema discovery and query generation succeed but execution
fails, the full pipeline returns an error response of kind ExecutionFailed
whose `cypher_query` still carries the generated statement while
`cypher_result` and `answer` stay empty. -/
theorem claim_C3_execution_failure_preserves_query (caps : CoreCapabilities)
    (graph_name question schema query e : String)
    (h1 : caps.fetchSchema graph_name = .ok schema)
    (h2 : caps.generateQuery schema
      [{ role := ChatRole.user, content := question }] = .ok query)
    (h3 : caps.executeQuery graph_name query = .error e) :
    text_to_cypher (coreClientFull caps) graph_name question =
      .ok { status := "error", schema := some schema,
            cypher_query := some query, cypher_result := none, answer := none,
            error := some ("ExecutionFailed: " ++ e) } := by
  simp only [text_to_cypher, coreClientFull, corePipeline, h1, h2, h3,
    coreToResponse]

/-- Witness for C3 at the concrete execution-failure scenario. -/
theorem claim_C3_witness :
    (capsExecFail.fetchSchema "movies" = .ok "schema-json") ∧
    (capsExecFail.generateQuery "schema-json"
      [{ role := ChatRole.user, content := "Find actors" }] =
      .ok "MATCH (a:Actor) RETURN a") ∧
    (capsExecFail.executeQuery "movies" "MATCH (a:Actor) RETURN a" =
      .error "store rejected the statement") ∧
    text_to_cypher (coreClientFull capsExecFail) "movies" "Find actors" =
      .ok { status := "error", schema := some "schema-json",
            cypher_query := some "MATCH (a:Actor) RETURN a",
            cypher_result := none, answer := none,
            error := some ("ExecutionFailed: " ++
              "store rejected the statement") } :=
  ⟨rfl, rfl, rfl, claim_C3_execution_failure_preserves_query capsExecFail
    "movies" "Find actors" "schema-json" "MATCH (a:Actor) RETURN a"
    "store rejected the statement" rfl rfl rfl⟩

/-- C9: for every `ClientOptions` value, the `TextToCypher` constructor
succeeds, returning a client wrapping the core client built from exactly the
supplied configuration — construction never fails. -/
theorem claim_C9_construction_never_fails (options : ClientOptions) :
    TextToCypher.new options = .ok { client := (TextToCypherClient.new
      options.model options.api_key options.falkordb_connection) } := rfl

/-- C10: the conversion from the core response type to the binding's
`TextToCypherResponse` preserves every field — status, schema, cypher_query,
cypher_result, answer and error are each copied unchanged. -/
theorem claim_C10_conversion_field_preserving (r : CoreTextToCypherResponse) :
    (coreToResponse r).status = r.status ∧
    (coreToResponse r).schema = r.schema ∧
    (coreToResponse r).cypher_query = r.cypher_query ∧
    (coreToResponse r).cypher_result = r.cypher_result ∧
    (coreToResponse r).answer = r.answer ∧
    (coreToResponse r).error = r.error :=
  ⟨rfl, rfl, rfl, rfl, rfl, rfl⟩

end TextToCypherNode
